import Mathlib

/-!
Shallow embedding of the Vehicle Conspicuity Management System backend
(`src/server.py`, with `src/backend/server.py` as a behaviourally identical
near-duplicate) and proofs about its role-scoped authorization model.

Conventions of the embedding:
* Timestamps are `Nat` (the wall clock is passed explicitly as a `now`
  parameter wherever the source calls `datetime.now`).
* Freshly generated UUIDs are passed explicitly as `newId` parameters.
* Python dicts (the `images` field) are association lists with the
  key-replacing insert of dict assignment.
* Fallible handlers return `Except ApiError`; an HTTP error response raised
  before any store write leaves the store unchanged, which the `run*`
  wrappers make explicit.
* Password hashing and token signing are external oracles per the spec and
  are not modelled; a session credential is represented by the username it
  resolves to (`resolveCaller` models the `HTTPBearer` security dependency
  followed by `get_current_user`).
-/

namespace VCMS

/-- Error taxonomy of the spec, matching the HTTP statuses raised in
`src/server.py`: 401 invalid credential, 403 insufficient permission,
404 missing entity, 400 duplicate username, 400 invalid image tag. -/
inductive ApiError where
  | unauthenticated
  | forbidden
  | notFound
  | conflict
  | invalidInput
deriving Repr, DecidableEq

/-- `VehicleDetails` pydantic model (src/server.py lines 108-114). -/
structure VehicleDetails where
  registration_no : String
  chassis_no : String
  vehicle_make : String
  vehicle_model : String
  registration_year : Int
  engine_no : String
deriving Repr, DecidableEq

/-- `OwnerDetails` pydantic model (src/server.py lines 117-119). -/
structure OwnerDetails where
  owner_name : String
  contact_number : String
deriving Repr, DecidableEq

/-- `FitmentDetails` pydantic model (src/server.py lines 122-133); the
float tape lengths are modelled as rationals. -/
structure FitmentDetails where
  red_20mm : Rat := 0
  white_20mm : Rat := 0
  yellow_20mm : Rat := 0
  red_50mm : Rat := 0
  white_50mm : Rat := 0
  yellow_50mm : Rat := 0
  c3_plates : Int := 0
  c4_plates : Int := 0
deriving Repr, DecidableEq

/-- `User` pydantic model / `UserModel` row (password material elided:
hashing is an external oracle per the spec). -/
structure User where
  id : String
  username : String
  role : String
  company_name : Option String := none
  contact_number : Option String := none
  created_by : Option String := none
  created_at : Nat := 0
deriving Repr, DecidableEq

/-- `RelationshipModel` row: a directed distributor-to-retailer edge. -/
structure RelationshipEdge where
  distributor_id : String
  retailer_id : String
deriving Repr, DecidableEq

/-- `Certificate` pydantic model / `CertificateModel` row. `images` is the
Python dict mapping tag to base64 payload, as an association list. -/
structure Certificate where
  id : String
  certificate_no : String
  retailer_id : String
  dealer_name : String
  dealer_license : String
  vehicle_details : VehicleDetails
  owner_details : OwnerDetails
  fitment_details : FitmentDetails
  fitment_date : Nat := 0
  images : List (String × String) := []
  status : String := "draft"
  created_at : Nat := 0
  updated_at : Nat := 0
deriving Repr, DecidableEq

/-- `UserCreate` request body for registration. -/
structure UserCreate where
  username : String
  password : String
  role : String
  company_name : Option String := none
  contact_number : Option String := none
deriving Repr, DecidableEq

/-- `CertificateUpdate` request body: every field optional. -/
structure CertificateUpdate where
  dealer_name : Option String := none
  dealer_license : Option String := none
  vehicle_details : Option VehicleDetails := none
  owner_details : Option OwnerDetails := none
  fitment_details : Option FitmentDetails := none
  status : Option String := none
deriving Repr, DecidableEq

/-- The persistent store: users, relationship edges, certificates. -/
structure ServerState where
  users : List User := []
  relationships : List RelationshipEdge := []
  certificates : List Certificate := []
deriving Repr, DecidableEq

/-- Whether a username is already registered
(`select(UserModel).where(UserModel.username == ...)` in register_user). -/
def usernameTaken (st : ServerState) (name : String) : Bool :=
  st.users.any (fun u => u.username == name)

/-- The role-based registration gate of `register_user`
(src/server.py lines 270-290): admin creation always refused; distributors
only by an admin; retailers only by an admin or a distributor; any other
role string falls through the if/elif chain with no check at all. -/
def roleGate (caller : Option User) (role : String) : Except ApiError Unit :=
  if role = "admin" then .error .forbidden
  else if role = "distributor" then
    match caller with
    | some c => if c.role = "admin" then .ok () else .error .forbidden
    | none => .error .forbidden
  else if role = "retailer" then
    match caller with
    | some c =>
        if c.role = "admin" ∨ c.role = "distributor" then .ok ()
        else .error .forbidden
    | none => .error .forbidden
  else .ok ()

/-- The `User` object built by `register_user` from the request body, the
generated id and the acting caller (`created_by` stamped when present). -/
def mkUser (caller : Option User) (req : UserCreate) (newId : String)
    (now : Nat) : User :=
  { id := newId, username := req.username, role := req.role,
    company_name := req.company_name,
    contact_number := req.contact_number,
    created_by := caller.map (fun c => c.id), created_at := now }

/-- The `register_user` handler body (src/server.py lines 254-332):
duplicate-username check first, then the role gate, then persistence of the
new user with `created_by` stamped from the caller, and the side-effect
relationship edge when a distributor registers a retailer. -/
def register_user (caller : Option User) (st : ServerState) (req : UserCreate)
    (newId : String) (now : Nat) : Except ApiError (User × ServerState) :=
  if usernameTaken st req.username then .error .conflict
  else
    match roleGate caller req.role with
    | .error e => .error e
    | .ok _ =>
      let user : User := mkUser caller req newId now
      let st1 : ServerState := { st with users := st.users ++ [user] }
      match caller with
      | some c =>
          if req.role = "retailer" ∧ c.role = "distributor" then
            .ok (user, { st1 with relationships :=
              st1.relationships ++ [⟨c.id, user.id⟩] })
          else .ok (user, st1)
      | none => .ok (user, st1)

/-- The authentication dependency chain in front of every handler:
`security = HTTPBearer()` (auto_error, so a request carrying no bearer
credential is rejected before any handler body runs — FastAPI library
behaviour) followed by `get_current_user` (src/server.py lines 182-215,
401 when the token's subject resolves to no user). A credential is
modelled by the username its JWT subject carries. -/
def resolveCaller (st : ServerState) (cred : Option String) :
    Except ApiError User :=
  match cred with
  | none => .error .unauthenticated
  | some username =>
    match st.users.find? (fun u => u.username == username) with
    | none => .error .unauthenticated
    | some u => .ok u

/-- The register endpoint as wired: the `Depends(get_current_user)` chain
resolves the caller (rejecting credential-less requests) before
`register_user` runs, so the handler never receives `none`. -/
def registerEndpoint (st : ServerState) (cred : Option String)
    (req : UserCreate) (newId : String) (now : Nat) :
    Except ApiError (User × ServerState) :=
  match resolveCaller st cred with
  | .error e => .error e
  | .ok u => register_user (some u) st req newId now

/-- The retailer ids reachable from a distributor: retailer_ids of the
relationship rows with this distributor_id. -/
def reachableRetailers (st : ServerState) (did : String) : List String :=
  (st.relationships.filter (fun e => e.distributor_id == did)).map
    (fun e => e.retailer_id)

/-- The `get_certificates` handler (src/server.py lines 445-486): admin
unscoped; distributor scoped to reachable retailers (empty reachable set
short-circuits to an empty list); everyone else scoped to own id. -/
def getCertificates (st : ServerState) (caller : User) :
    Except ApiError (List Certificate) :=
  if caller.role = "admin" then .ok st.certificates
  else if caller.role = "distributor" then
    if (reachableRetailers st caller.id).isEmpty then .ok []
    else .ok (st.certificates.filter
      (fun c => (reachableRetailers st caller.id).contains c.retailer_id))
  else .ok (st.certificates.filter (fun c => c.retailer_id == caller.id))

/-- Point lookup of a certificate by id (`scalar_one_or_none` on
`where(CertificateModel.id == certificate_id)`). -/
def findCert : List Certificate → String → Option Certificate
  | [], _ => none
  | c :: rest, certId =>
      if c.id = certId then some c else findCert rest certId

/-- Whether a relationship edge with the given endpoints exists. -/
def relExists (st : ServerState) (did rid : String) : Bool :=
  st.relationships.any
    (fun e => e.distributor_id == did && e.retailer_id == rid)

/-- The `get_certificate` handler (src/server.py lines 489-534): lookup
first (404 on miss), then the role/ownership/edge permission check. -/
def getCertificate (st : ServerState) (caller : User) (certId : String) :
    Except ApiError Certificate :=
  match findCert st.certificates certId with
  | none => .error .notFound
  | some r =>
    if caller.role = "retailer" ∧ r.retailer_id ≠ caller.id then
      .error .forbidden
    else if caller.role = "distributor" then
      if relExists st caller.id r.retailer_id then .ok r
      else .error .forbidden
    else .ok r

/-- Field-level application of a partial update (src/server.py lines
553-567): each non-None field overwrites, `updated_at` is stamped with the
current time, and no other column appears in `update_fields`. -/
def applyUpdate (r : Certificate) (upd : CertificateUpdate) (now : Nat) :
    Certificate :=
  { r with
    dealer_name := upd.dealer_name.getD r.dealer_name,
    dealer_license := upd.dealer_license.getD r.dealer_license,
    vehicle_details := upd.vehicle_details.getD r.vehicle_details,
    owner_details := upd.owner_details.getD r.owner_details,
    fitment_details := upd.fitment_details.getD r.fitment_details,
    status := upd.status.getD r.status,
    updated_at := now }

/-- `UPDATE certificates ... WHERE id = certId`: every row with the id is
replaced. -/
def replaceCert : List Certificate → String → Certificate → List Certificate
  | [], _, _ => []
  | c :: rest, certId, newCert =>
      if c.id = certId then newCert :: replaceCert rest certId newCert
      else c :: replaceCert rest certId newCert

/-- The store after the row with `certId` has been overwritten with `c`. -/
def afterWrite (st : ServerState) (certId : String) (c : Certificate) :
    ServerState :=
  { st with certificates := replaceCert st.certificates certId c }

/-- The `update_certificate` handler (src/server.py lines 537-595):
role gate `require_roles([RETAILER])`, lookup (404), ownership check (403),
field-level update, re-fetch and return. -/
def updateCertificate (st : ServerState) (caller : User) (certId : String)
    (upd : CertificateUpdate) (now : Nat) :
    Except ApiError (Certificate × ServerState) :=
  if caller.role = "retailer" then
    match findCert st.certificates certId with
    | none => .error .notFound
    | some r =>
      if r.retailer_id ≠ caller.id then .error .forbidden
      else
        .ok (applyUpdate r upd now,
          afterWrite st certId (applyUpdate r upd now))
  else .error .forbidden

/-- Python dict assignment `d[k] = v` on an association list: the first
entry with the key is replaced in place, otherwise the pair is appended. -/
def dictInsert (k v : String) : List (String × String) → List (String × String)
  | [] => [(k, v)]
  | (k', v') :: rest =>
      if k' = k then (k, v) :: rest else (k', v') :: dictInsert k v rest

/-- Python dict lookup `d.get(k)` on an association list. -/
def dictLookup (k : String) : List (String × String) → Option String
  | [] => none
  | (k', v) :: rest => if k' = k then some v else dictLookup k rest

/-- Number of entries carrying a key. -/
def countKey (k : String) (l : List (String × String)) : Nat :=
  (l.filter (fun p => p.1 == k)).length

/-- The image-attach write of `upload_certificate_image`:
`new_images = dict(r.images); new_images[image_type] = encoded`, stored with
a fresh `updated_at`. -/
def attachImage (r : Certificate) (tag payload : String) (now : Nat) :
    Certificate :=
  { r with images := dictInsert tag payload r.images, updated_at := now }

/-- The `upload_certificate_image` handler (src/server.py lines 598-628):
role gate, lookup (404), ownership check (403), tag validation (400), then
the `attachImage` write. The base64-encoded file content is the `payload`
string. -/
def uploadCertificateImage (st : ServerState) (caller : User)
    (certId imageType payload : String) (now : Nat) :
    Except ApiError ServerState :=
  if caller.role = "retailer" then
    match findCert st.certificates certId with
    | none => .error .notFound
    | some r =>
      if r.retailer_id ≠ caller.id then .error .forbidden
      else if imageType = "front" ∨ imageType = "back" ∨
          imageType = "side1" ∨ imageType = "side2" then
        .ok (afterWrite st certId (attachImage r imageType payload now))
      else .error .invalidInput
  else .error .forbidden

/-- State observed after an update request: errors are raised before any
store write, so they leave the store as it was. -/
def runUpdate (st : ServerState) (caller : User) (certId : String)
    (upd : CertificateUpdate) (now : Nat) : ServerState :=
  match updateCertificate st caller certId upd now with
  | .ok (_, st') => st'
  | .error _ => st

/-- State observed after an image-attach request: errors are raised before
any store write, so they leave the store as it was. -/
def runUpload (st : ServerState) (caller : User)
    (certId imageType payload : String) (now : Nat) : ServerState :=
  match uploadCertificateImage st caller certId imageType payload now with
  | .ok st' => st'
  | .error _ => st

/-- Whether the certificate with this id exists and is owned by `uid`. -/
def ownsCert (st : ServerState) (certId uid : String) : Bool :=
  match findCert st.certificates certId with
  | some r => r.retailer_id == uid
  | none => false

/-- Whether an `Except` result is an error. -/
def isErr : Except ApiError α → Bool
  | .error _ => true
  | .ok _ => false

/-- Concrete fixture: the bootstrap admin. -/
def adminUser : User := { id := "u-admin", username := "admin", role := "admin" }

/-- Concrete fixture: a distributor. -/
def distUser : User := { id := "u-dist", username := "dist1", role := "distributor" }

/-- Concrete fixture: a retailer linked to `distUser`. -/
def retailUser : User := { id := "u-ret", username := "ret1", role := "retailer" }

/-- Concrete fixture: a second retailer, linked to no distributor. -/
def retailUser2 : User := { id := "u-ret2", username := "ret2", role := "retailer" }

/-- Concrete fixture: vehicle details. -/
def sampleVehicle : VehicleDetails :=
  { registration_no := "MH01AB1234", chassis_no := "CH123",
    vehicle_make := "Tata", vehicle_model := "Ace",
    registration_year := 2023, engine_no := "EN456" }

/-- Concrete fixture: owner details. -/
def sampleOwner : OwnerDetails := { owner_name := "Owner", contact_number := "900" }

/-- Concrete fixture: a certificate owned by `retailUser`. -/
def sampleCert : Certificate :=
  { id := "c1", certificate_no := "CERT0001", retailer_id := "u-ret",
    dealer_name := "Dealer", dealer_license := "DL1",
    vehicle_details := sampleVehicle, owner_details := sampleOwner,
    fitment_details := {}, fitment_date := 1,
    images := [], status := "draft", created_at := 1, updated_at := 1 }

/-- Concrete fixture: a store with one user per role, one edge
distUser to retailUser, and one certificate owned by retailUser. -/
def sampleState : ServerState :=
  { users := [adminUser, distUser, retailUser, retailUser2],
    relationships := [⟨"u-dist", "u-ret"⟩],
    certificates := [sampleCert] }

/-- Concrete fixture: a registration request for a distributor role. -/
def distReq : UserCreate := { username := "newdist", password := "pw", role := "distributor" }

/-- Concrete fixture: a registration request for the admin role. -/
def adminReq : UserCreate := { username := "admin2", password := "pw", role := "admin" }

/-- Concrete fixture: a registration request whose username collides with
the existing admin and whose role would also be denied. -/
def dupReq : UserCreate := { username := "admin", password := "pw", role := "admin" }

/-- Concrete fixture: a registration request with the unrecognized role
string "Admin" (a case variant outside the role set). -/
def weirdReq : UserCreate := { username := "weird", password := "pw", role := "Admin" }

/-- C6: in `register_user` the username-uniqueness check runs before the
role gate: a taken username yields the conflict kind for every caller
(including none) and every requested role, independent of any permission
outcome. -/
theorem register_duplicate_conflict (caller : Option User) (st : ServerState)
    (req : UserCreate) (newId : String) (now : Nat)
    (hdup : usernameTaken st req.username = true) :
    register_user caller st req newId now = .error .conflict := by
  simp [register_user, hdup]

/-- C6 witness: registering the taken username "admin" with role admin
(whose role gate would also deny) conflicts. -/
theorem register_duplicate_conflict_witness :
    register_user (some retailUser) sampleState dupReq "u-x" 9 = .error .conflict :=
  register_duplicate_conflict (some retailUser) sampleState dupReq "u-x" 9 (by decide)

/-- C5: requesting role admin never creates a user: `register_user` always
errors, and whenever the username is fresh the error is precisely the
role-gate forbidden, for every caller identity and for a missing caller. -/
theorem register_admin_role_denied (caller : Option User) (st : ServerState)
    (req : UserCreate) (newId : String) (now : Nat)
    (hrole : req.role = "admin") :
    isErr (register_user caller st req newId now) = true ∧
    (usernameTaken st req.username = false →
      register_user caller st req newId now = .error .forbidden) := by
  constructor
  · by_cases h : usernameTaken st req.username
    · simp [register_user, h, isErr]
    · simp [register_user, h, roleGate, hrole, isErr]
  · intro hfree
    simp [register_user, hfree, roleGate, hrole]

/-- C5 witness: an admin caller registering a fresh admin username is
denied with forbidden. -/
theorem register_admin_role_denied_witness :
    register_user (some adminUser) sampleState adminReq "u-x2" 9 = .error .forbidden :=
  (register_admin_role_denied (some adminUser) sampleState adminReq "u-x2" 9 rfl).2
    (by decide)

/-- C4: a role string outside the recognized set falls through the role
gate with no permission check: for every authenticated caller of any role,
registration with a fresh username succeeds and persists an identity
carrying that unrecognized role value. -/
theorem register_unknown_role_accepted (caller : User) (st : ServerState)
    (req : UserCreate) (newId : String) (now : Nat)
    (hfree : usernameTaken st req.username = false)
    (ha : req.role ≠ "admin") (hd : req.role ≠ "distributor")
    (hr : req.role ≠ "retailer") :
    register_user (some caller) st req newId now =
      .ok (mkUser (some caller) req newId now,
        { st with users := st.users ++ [mkUser (some caller) req newId now] }) ∧
    (mkUser (some caller) req newId now).role = req.role := by
  constructor
  · simp [register_user, hfree, roleGate, ha, hd, hr]
  · rfl

/-- C4 witness: a retailer caller (who may register nobody in the
recognized role set) successfully registers a user with role "Admin". -/
theorem register_unknown_role_accepted_witness :
    register_user (some retailUser) sampleState weirdReq "u-w" 7 =
      .ok (mkUser (some retailUser) weirdReq "u-w" 7,
        { sampleState with users :=
            sampleState.users ++ [mkUser (some retailUser) weirdReq "u-w" 7] }) :=
  (register_unknown_role_accepted retailUser sampleState weirdReq "u-w" 7
    (by decide) (by decide) (by decide) (by decide)).1

/-- C7: as wired, the register endpoint does not admit a missing caller:
a request carrying no credential is rejected as unauthenticated by the
security dependency before the role rules run, whereas the handler body
`register_user` applied to `caller = none` (the behaviour the spec
describes) decides the same distributor request by the role rules,
yielding forbidden. -/
theorem register_missing_caller_unauthenticated :
    registerEndpoint sampleState none distReq "u-new" 5 = .error .unauthenticated ∧
    register_user none sampleState distReq "u-new" 5 = .error .forbidden := by
  constructor
  · rfl
  · rfl

/-- C2: a retailer's certificate listing succeeds and returns exactly the
certificates whose retailer_id equals the caller's id, over any
certificate population: membership in the result is equivalent to being a
stored certificate owned by the caller. -/
theorem retailer_listing_exact (st : ServerState) (caller : User)
    (h : caller.role = "retailer") :
    getCertificates st caller =
      .ok (st.certificates.filter (fun c => c.retailer_id == caller.id)) ∧
    ∀ c, c ∈ st.certificates.filter (fun c => c.retailer_id == caller.id) ↔
      (c ∈ st.certificates ∧ c.retailer_id = caller.id) := by
  constructor
  · unfold getCertificates
    rw [h, if_neg (by decide), if_neg (by decide)]
  · intro c
    simp [List.mem_filter]

/-- C2 witness: on the fixture store, `retailUser` receives precisely the
one certificate it owns. -/
theorem retailer_listing_exact_witness :
    getCertificates sampleState retailUser =
      .ok (sampleState.certificates.filter
        (fun c => c.retailer_id == retailUser.id)) :=
  (retailer_listing_exact sampleState retailUser rfl).1

/-- C3: a distributor's certificate listing succeeds (never an error), any
returned list contains exactly the certificates whose retailer_id lies in
the distributor's reachable retailer set, and an empty reachable set yields
the empty list. -/
theorem distributor_listing_scope (st : ServerState) (caller : User)
    (h : caller.role = "distributor") :
    isErr (getCertificates st caller) = false ∧
    ∀ l, getCertificates st caller = .ok l →
      (∀ c, c ∈ l ↔ (c ∈ st.certificates ∧
        c.retailer_id ∈ reachableRetailers st caller.id)) ∧
      (reachableRetailers st caller.id = [] → l = []) := by
  have hgc : getCertificates st caller =
      if (reachableRetailers st caller.id).isEmpty then .ok []
      else .ok (st.certificates.filter
        (fun c => (reachableRetailers st caller.id).contains c.retailer_id)) := by
    unfold getCertificates
    rw [h, if_neg (by decide), if_pos rfl]
  by_cases he : (reachableRetailers st caller.id).isEmpty
  · rw [hgc, if_pos he]
    have hnil : reachableRetailers st caller.id = [] :=
      List.isEmpty_iff.mp he
    refine ⟨rfl, ?_⟩
    intro l hl
    cases hl
    refine ⟨?_, fun _ => rfl⟩
    intro c
    simp [hnil]
  · rw [hgc, if_neg he]
    refine ⟨rfl, ?_⟩
    intro l hl
    cases hl
    constructor
    · intro c
      simp [List.mem_filter, List.elem_iff]
    · intro hnil
      rw [hnil] at he
      exact absurd rfl he

/-- C3 witness: on the fixture store the distributor call succeeds, and the
certificate of its linked retailer is in any returned list. -/
theorem distributor_listing_scope_witness :
    isErr (getCertificates sampleState distUser) = false ∧
    (sampleCert ∈ [sampleCert] ↔ (sampleCert ∈ sampleState.certificates ∧
      sampleCert.retailer_id ∈ reachableRetailers sampleState distUser.id)) :=
  ⟨(distributor_listing_scope sampleState distUser rfl).1,
   ((distributor_listing_scope sampleState distUser rfl).2 [sampleCert]
      (by rfl)).1 sampleCert⟩

/-- C8: the single-certificate fetch reports an unknown id as not-found for
every caller of every role; the permission check is never reached, so the
result is never forbidden. -/
theorem get_certificate_miss_not_found (st : ServerState) (caller : User)
    (certId : String)
    (hmiss : findCert st.certificates certId = none) :
    getCertificate st caller certId = .error .notFound := by
  simp [getCertificate, hmiss]

/-- C8 witness: an unknown certificate id yields not-found even for a
retailer who owns nothing matching it. -/
theorem get_certificate_miss_not_found_witness :
    getCertificate sampleState retailUser2 "missing" = .error .notFound :=
  get_certificate_miss_not_found sampleState retailUser2 "missing" (by decide)

/-- A caller whose role is not retailer is stopped by the
`require_roles([UserRole.RETAILER])` dependency of `update_certificate`. -/
lemma updateCertificate_nonretailer (st : ServerState) (caller : User)
    (certId : String) (upd : CertificateUpdate) (now : Nat)
    (hrole : caller.role ≠ "retailer") :
    updateCertificate st caller certId upd now = .error .forbidden := by
  simp [updateCertificate, hrole]

/-- An unknown certificate id makes `update_certificate` return 404. -/
lemma updateCertificate_miss (st : ServerState) (caller : User)
    (certId : String) (upd : CertificateUpdate) (now : Nat)
    (hrole : caller.role = "retailer")
    (hf : findCert st.certificates certId = none) :
    updateCertificate st caller certId upd now = .error .notFound := by
  simp [updateCertificate, hrole, hf]

/-- A retailer who does not own the certificate is denied by
`update_certificate`. -/
lemma updateCertificate_notowner (st : ServerState) (caller : User)
    (certId : String) (upd : CertificateUpdate) (now : Nat) (r : Certificate)
    (hrole : caller.role = "retailer")
    (hf : findCert st.certificates certId = some r)
    (hne : r.retailer_id ≠ caller.id) :
    updateCertificate st caller certId upd now = .error .forbidden := by
  simp [updateCertificate, hrole, hf, hne]

/-- The owning retailer's `update_certificate` call succeeds with the
field-level update written back. -/
lemma updateCertificate_ok (st : ServerState) (caller : User)
    (certId : String) (upd : CertificateUpdate) (now : Nat) (r : Certificate)
    (hrole : caller.role = "retailer")
    (hf : findCert st.certificates certId = some r)
    (hown : r.retailer_id = caller.id) :
    updateCertificate st caller certId upd now =
      .ok (applyUpdate r upd now, afterWrite st certId (applyUpdate r upd now)) := by
  simp [updateCertificate, hrole, hf, hown]

/-- A caller whose role is not retailer is stopped by the
`require_roles([UserRole.RETAILER])` dependency of
`upload_certificate_image`. -/
lemma uploadImage_nonretailer (st : ServerState) (caller : User)
    (certId imageType payload : String) (now : Nat)
    (hrole : caller.role ≠ "retailer") :
    uploadCertificateImage st caller certId imageType payload now =
      .error .forbidden := by
  simp [uploadCertificateImage, hrole]

/-- An unknown certificate id makes `upload_certificate_image` return 404. -/
lemma uploadImage_miss (st : ServerState) (caller : User)
    (certId imageType payload : String) (now : Nat)
    (hrole : caller.role = "retailer")
    (hf : findCert st.certificates certId = none) :
    uploadCertificateImage st caller certId imageType payload now =
      .error .notFound := by
  simp [uploadCertificateImage, hrole, hf]

/-- A retailer who does not own the certificate is denied by
`upload_certificate_image`. -/
lemma uploadImage_notowner (st : ServerState) (caller : User)
    (certId imageType payload : String) (now : Nat) (r : Certificate)
    (hrole : caller.role = "retailer")
    (hf : findCert st.certificates certId = some r)
    (hne : r.retailer_id ≠ caller.id) :
    uploadCertificateImage st caller certId imageType payload now =
      .error .forbidden := by
  simp [uploadCertificateImage, hrole, hf, hne]

/-- The owning retailer's `upload_certificate_image` call with a valid tag
succeeds with the image write applied. -/
lemma uploadImage_ok (st : ServerState) (caller : User)
    (certId imageType payload : String) (now : Nat) (r : Certificate)
    (hrole : caller.role = "retailer")
    (hf : findCert st.certificates certId = some r)
    (hown : r.retailer_id = caller.id)
    (htag : imageType = "front" ∨ imageType = "back" ∨
      imageType = "side1" ∨ imageType = "side2") :
    uploadCertificateImage st caller certId imageType payload now =
      .ok (afterWrite st certId (attachImage r imageType payload now)) := by
  simp [uploadCertificateImage, hrole, hf, hown, htag]

/-- C1: certificate mutation is owner-retailer only. Whenever the caller is
not a retailer owning the target certificate, both `update_certificate` and
`upload_certificate_image` error and leave the store untouched; an admin or
distributor caller is always denied with forbidden, and so is a retailer
caller who does not own the (existing) target certificate. -/
theorem cert_mutation_owner_only (st : ServerState) (caller : User)
    (certId : String) (upd : CertificateUpdate) (imageType payload : String)
    (t1 t2 : Nat)
    (hnot : ¬ (caller.role = "retailer" ∧ ownsCert st certId caller.id = true)) :
    isErr (updateCertificate st caller certId upd t1) = true ∧
    isErr (uploadCertificateImage st caller certId imageType payload t2) = true ∧
    runUpdate st caller certId upd t1 = st ∧
    runUpload st caller certId imageType payload t2 = st ∧
    ((caller.role = "admin" ∨ caller.role = "distributor") →
      updateCertificate st caller certId upd t1 = .error .forbidden ∧
      uploadCertificateImage st caller certId imageType payload t2 =
        .error .forbidden) ∧
    (∀ r, caller.role = "retailer" →
      findCert st.certificates certId = some r → r.retailer_id ≠ caller.id →
      updateCertificate st caller certId upd t1 = .error .forbidden ∧
      uploadCertificateImage st caller certId imageType payload t2 =
        .error .forbidden) := by
  by_cases hrole : caller.role = "retailer"
  · cases hf : findCert st.certificates certId with
    | none =>
      have h1 := updateCertificate_miss st caller certId upd t1 hrole hf
      have h2 := uploadImage_miss st caller certId imageType payload t2 hrole hf
      refine ⟨by simp [h1, isErr], by simp [h2, isErr],
        by simp [runUpdate, h1], by simp [runUpload, h2], ?_, ?_⟩
      · intro had
        exfalso
        rw [hrole] at had
        rcases had with ha | hd
        · exact absurd ha (by decide)
        · exact absurd hd (by decide)
      · intro r _ hfr
        cases hfr
    | some r =>
      have hne : r.retailer_id ≠ caller.id := by
        intro he
        have hot : ownsCert st certId caller.id = true := by
          simp [ownsCert, hf, he]
        exact hnot ⟨hrole, hot⟩
      have h1 := updateCertificate_notowner st caller certId upd t1 r hrole hf hne
      have h2 := uploadImage_notowner st caller certId imageType payload t2 r
        hrole hf hne
      refine ⟨by simp [h1, isErr], by simp [h2, isErr],
        by simp [runUpdate, h1], by simp [runUpload, h2], ?_, ?_⟩
      · intro had
        exfalso
        rw [hrole] at had
        rcases had with ha | hd
        · exact absurd ha (by decide)
        · exact absurd hd (by decide)
      · intro r' _ _ _
        exact ⟨h1, h2⟩
  · have h1 := updateCertificate_nonretailer st caller certId upd t1 hrole
    have h2 := uploadImage_nonretailer st caller certId imageType payload t2 hrole
    exact ⟨by simp [h1, isErr], by simp [h2, isErr],
      by simp [runUpdate, h1], by simp [runUpload, h2],
      fun _ => ⟨h1, h2⟩, fun r hr _ _ => absurd hr hrole⟩

/-- C1 witness: the admin caller is denied the update with forbidden, and
an image attach by the admin leaves the store unchanged. -/
theorem cert_mutation_owner_only_witness :
    updateCertificate sampleState adminUser "c1" {} 2 = .error .forbidden ∧
    runUpload sampleState adminUser "c1" "front" "PAYLOAD" 2 = sampleState := by
  have h := cert_mutation_owner_only sampleState adminUser "c1" {} "front"
    "PAYLOAD" 2 2 (by decide)
  exact ⟨(h.2.2.2.2.1 (Or.inl rfl)).1, h.2.2.2.1⟩

/-- Concrete fixture: a partial update touching dealer_name and status. -/
def sampleUpd : CertificateUpdate :=
  { dealer_name := some "NewDealer", status := some "submitted" }

/-- C9: a successful owner update never changes the certificate's id,
certificate_no or retailer_id; the stored `updated_at` becomes the
mutation instant, so it strictly increases whenever the clock has advanced
past the pre-update value (the code stamps `datetime.now`). -/
theorem update_preserves_identity_fields (st : ServerState) (caller : User)
    (certId : String) (upd : CertificateUpdate) (now : Nat)
    (r out : Certificate) (st' : ServerState)
    (hf : findCert st.certificates certId = some r)
    (hok : updateCertificate st caller certId upd now = .ok (out, st'))
    (hclock : r.updated_at < now) :
    out.id = r.id ∧ out.certificate_no = r.certificate_no ∧
    out.retailer_id = r.retailer_id ∧ out.updated_at = now ∧
    r.updated_at < out.updated_at := by
  by_cases hrole : caller.role = "retailer"
  · by_cases hown : r.retailer_id = caller.id
    · have heq := (updateCertificate_ok st caller certId upd now r
        hrole hf hown).symm.trans hok
      have hpair : applyUpdate r upd now = out := by
        injection heq with h'
        exact congrArg Prod.fst h'
      rw [← hpair]
      exact ⟨rfl, rfl, rfl, rfl, hclock⟩
    · rw [updateCertificate_notowner st caller certId upd now r hrole hf hown]
        at hok
      cases hok
  · rw [updateCertificate_nonretailer st caller certId upd now hrole] at hok
    cases hok

/-- C9 witness: on the fixture certificate (updated_at = 1) an owner update
at time 2 keeps retailer_id and strictly raises updated_at. -/
theorem update_preserves_identity_fields_witness :
    (applyUpdate sampleCert sampleUpd 2).retailer_id = sampleCert.retailer_id ∧
    sampleCert.updated_at < (applyUpdate sampleCert sampleUpd 2).updated_at := by
  have h := update_preserves_identity_fields sampleState retailUser "c1"
    sampleUpd 2 sampleCert (applyUpdate sampleCert sampleUpd 2)
    (afterWrite sampleState "c1" (applyUpdate sampleCert sampleUpd 2))
    (by decide)
    (updateCertificate_ok sampleState retailUser "c1" sampleUpd 2 sampleCert
      rfl (by decide) rfl)
    (by decide)
  exact ⟨h.2.2.1, h.2.2.2.2⟩

/-- A certificate returned by the point lookup carries the looked-up id. -/
lemma findCert_id (l : List Certificate) (certId : String) (r : Certificate)
    (h : findCert l certId = some r) : r.id = certId := by
  induction l with
  | nil => cases h
  | cons c rest ih =>
    unfold findCert at h
    by_cases hc : c.id = certId
    · rw [if_pos hc] at h
      injection h with h'
      rw [← h']
      exact hc
    · rw [if_neg hc] at h
      exact ih h

/-- After overwriting the row with `certId` by a certificate that carries
that id, the point lookup returns the new certificate. -/
lemma findCert_replace (l : List Certificate) (certId : String)
    (r newCert : Certificate) (h : findCert l certId = some r)
    (hnew : newCert.id = certId) :
    findCert (replaceCert l certId newCert) certId = some newCert := by
  induction l with
  | nil => cases h
  | cons c rest ih =>
    unfold findCert at h
    unfold replaceCert
    by_cases hc : c.id = certId
    · rw [if_pos hc]
      unfold findCert
      rw [if_pos hnew]
    · rw [if_neg hc]
      unfold findCert
      rw [if_neg hc]
      rw [if_neg hc] at h
      exact ih h

/-- Looking up the key just assigned returns the assigned value. -/
lemma dictLookup_insert_self (k v : String) (m : List (String × String)) :
    dictLookup k (dictInsert k v m) = some v := by
  induction m with
  | nil => simp [dictInsert, dictLookup]
  | cons p rest ih =>
    obtain ⟨k0, v0⟩ := p
    unfold dictInsert
    by_cases h0 : k0 = k
    · rw [if_pos h0]
      unfold dictLookup
      rw [if_pos rfl]
    · rw [if_neg h0]
      unfold dictLookup
      rw [if_neg h0]
      exact ih

/-- Assigning one key leaves every other key's lookup unchanged. -/
lemma dictLookup_insert_other (k k' v : String) (m : List (String × String))
    (h : k' ≠ k) :
    dictLookup k' (dictInsert k v m) = dictLookup k' m := by
  induction m with
  | nil =>
    unfold dictInsert dictLookup
    rw [if_neg (Ne.symm h)]
    rfl
  | cons p rest ih =>
    obtain ⟨k0, v0⟩ := p
    unfold dictInsert
    by_cases h0 : k0 = k
    · rw [if_pos h0]
      unfold dictLookup
      rw [if_neg (Ne.symm h), if_neg (by rw [h0]; exact Ne.symm h)]
    · rw [if_neg h0]
      unfold dictLookup
      by_cases h1 : k0 = k'
      · rw [if_pos h1, if_pos h1]
      · rw [if_neg h1, if_neg h1]
        exact ih

/-- Splitting the key count over a cons cell. -/
lemma countKey_cons (k k0 v0 : String) (rest : List (String × String)) :
    countKey k ((k0, v0) :: rest) =
      (if k0 = k then 1 else 0) + countKey k rest := by
  by_cases h : k0 = k
  · simp [countKey, List.filter_cons, h, Nat.add_comm]
  · simp [countKey, List.filter_cons, h]

/-- Python dict assignment never duplicates a key: if the key occurred at
most once (as in every real dict), it occurs exactly once afterwards. -/
lemma countKey_insert (k v : String) (m : List (String × String))
    (h : countKey k m ≤ 1) : countKey k (dictInsert k v m) = 1 := by
  induction m with
  | nil => simp [dictInsert, countKey]
  | cons p rest ih =>
    obtain ⟨k0, v0⟩ := p
    unfold dictInsert
    rw [countKey_cons] at h
    by_cases h0 : k0 = k
    · rw [if_pos h0]
      rw [if_pos h0] at h
      rw [countKey_cons, if_pos rfl]
      omega
    · rw [if_neg h0]
      rw [if_neg h0] at h
      rw [countKey_cons, if_neg h0]
      have := ih (by omega)
      omega

/-- C10: image attachment has map-update semantics. For a certificate
owned by the retailer caller, attaching "front" then "back" through the
endpoint succeeds step by step and the stored certificate maps "front" to
the first payload and "back" to the second; attaching "front" twice stores
the second payload under a single "front" entry (given the dict invariant
that a key occurs at most once) and leaves every other key's binding
exactly as it was. -/
theorem image_attach_map_semantics (st : ServerState) (caller : User)
    (certId p1 p2 : String) (t1 t2 : Nat) (r : Certificate)
    (hrole : caller.role = "retailer")
    (hf : findCert st.certificates certId = some r)
    (hown : r.retailer_id = caller.id) :
    uploadCertificateImage st caller certId "front" p1 t1 =
      .ok (afterWrite st certId (attachImage r "front" p1 t1)) ∧
    uploadCertificateImage (afterWrite st certId (attachImage r "front" p1 t1))
        caller certId "back" p2 t2 =
      .ok (afterWrite (afterWrite st certId (attachImage r "front" p1 t1))
        certId (attachImage (attachImage r "front" p1 t1) "back" p2 t2)) ∧
    findCert (afterWrite (afterWrite st certId (attachImage r "front" p1 t1))
        certId (attachImage (attachImage r "front" p1 t1) "back" p2 t2)).certificates
        certId =
      some (attachImage (attachImage r "front" p1 t1) "back" p2 t2) ∧
    dictLookup "front"
      (attachImage (attachImage r "front" p1 t1) "back" p2 t2).images = some p1 ∧
    dictLookup "back"
      (attachImage (attachImage r "front" p1 t1) "back" p2 t2).images = some p2 ∧
    uploadCertificateImage (afterWrite st certId (attachImage r "front" p1 t1))
        caller certId "front" p2 t2 =
      .ok (afterWrite (afterWrite st certId (attachImage r "front" p1 t1))
        certId (attachImage (attachImage r "front" p1 t1) "front" p2 t2)) ∧
    dictLookup "front"
      (attachImage (attachImage r "front" p1 t1) "front" p2 t2).images = some p2 ∧
    (countKey "front" r.images ≤ 1 →
      countKey "front"
        (attachImage (attachImage r "front" p1 t1) "front" p2 t2).images = 1) ∧
    (∀ k, k ≠ "front" →
      dictLookup k (attachImage (attachImage r "front" p1 t1) "front" p2 t2).images =
        dictLookup k r.images) := by
  have hid : r.id = certId := findCert_id st.certificates certId r hf
  have hid1 : (attachImage r "front" p1 t1).id = certId := hid
  have hown1 : (attachImage r "front" p1 t1).retailer_id = caller.id := hown
  have h1 := uploadImage_ok st caller certId "front" p1 t1 r hrole hf hown
    (Or.inl rfl)
  have hf1 : findCert (afterWrite st certId (attachImage r "front" p1 t1)).certificates
      certId = some (attachImage r "front" p1 t1) :=
    findCert_replace st.certificates certId r (attachImage r "front" p1 t1) hf hid1
  have h2 := uploadImage_ok (afterWrite st certId (attachImage r "front" p1 t1))
    caller certId "back" p2 t2 (attachImage r "front" p1 t1) hrole hf1 hown1
    (Or.inr (Or.inl rfl))
  have hf2 : findCert (afterWrite (afterWrite st certId (attachImage r "front" p1 t1))
      certId (attachImage (attachImage r "front" p1 t1) "back" p2 t2)).certificates
      certId = some (attachImage (attachImage r "front" p1 t1) "back" p2 t2) :=
    findCert_replace _ certId (attachImage r "front" p1 t1)
      (attachImage (attachImage r "front" p1 t1) "back" p2 t2) hf1 hid1
  have h2f := uploadImage_ok (afterWrite st certId (attachImage r "front" p1 t1))
    caller certId "front" p2 t2 (attachImage r "front" p1 t1) hrole hf1 hown1
    (Or.inl rfl)
  refine ⟨h1, h2, hf2, ?_, ?_, h2f, ?_, ?_, ?_⟩
  · show dictLookup "front" (dictInsert "back" p2 (dictInsert "front" p1 r.images)) =
      some p1
    rw [dictLookup_insert_other "back" "front" p2 _ (by decide)]
    exact dictLookup_insert_self "front" p1 r.images
  · exact dictLookup_insert_self "back" p2 _
  · exact dictLookup_insert_self "front" p2 _
  · intro hle
    show countKey "front" (dictInsert "front" p2 (dictInsert "front" p1 r.images)) = 1
    exact countKey_insert "front" p2 _
      (by rw [countKey_insert "front" p1 r.images hle])
  · intro k hk
    show dictLookup k (dictInsert "front" p2 (dictInsert "front" p1 r.images)) =
      dictLookup k r.images
    rw [dictLookup_insert_other "front" k p2 _ hk,
      dictLookup_insert_other "front" k p1 _ hk]

/-- C10 witness: on the fixture certificate, front-then-back keeps both
payloads and front-twice keeps only the second front payload. -/
theorem image_attach_map_semantics_witness :
    dictLookup "front"
      (attachImage (attachImage sampleCert "front" "P1" 2) "back" "P2" 3).images =
      some "P1" ∧
    dictLookup "front"
      (attachImage (attachImage sampleCert "front" "P1" 2) "front" "P2" 3).images =
      some "P2" := by
  have h := image_attach_map_semantics sampleState retailUser "c1" "P1" "P2" 2 3
    sampleCert rfl (by decide) rfl
  exact ⟨h.2.2.2.1, h.2.2.2.2.2.2.1⟩

end VCMS
